import Mathlib

/-
Verification of the sunrise calculator (src/sunrise.py).

The Python source works with IEEE doubles and the math library; the shallow
embedding below models every float as a real number, math.sin / math.cos /
math.acos / math.atan / math.tan as the corresponding Real functions, the
Python modulo operator on floats as x - m * floor (x / m), math.modf as
truncation toward zero, and the Python builtin round as round-half-to-even.
Dates enter the source only through date.timetuple().tm_yday (day of year)
and date.toordinal() - date(2000,1,1).toordinal() (days since 2000-01-01);
the embedding takes those integers directly.
-/

namespace Sunrise

/-- Source line 6: TAU = math.pi * 2. -/
noncomputable def TAU : ℝ := Real.pi * 2

/-- Source line 7: DAYS_PER_YEAR = 365.25. -/
noncomputable def DAYS_PER_YEAR : ℝ := 365.25

/-- Source lines 19-20: degrees to radians. -/
noncomputable def rad_from_deg (degrees : ℝ) : ℝ := degrees / 360.0 * TAU

/-- Source lines 21-22: radians to degrees. -/
noncomputable def deg_from_rad (radians : ℝ) : ℝ := radians / TAU * 360

/-- Python float modulo: x % m = x - m * floor (x / m); the result has the
sign of the divisor. -/
noncomputable def pymod (x m : ℝ) : ℝ := x - m * ⌊x / m⌋

/-- Python math.modf: splits a float into fractional and integral parts,
truncating toward zero (the integral part is returned here as an integer;
the source later applies int() to it, which is the identity on an integral
float). -/
noncomputable def modf (x : ℝ) : ℝ × ℤ :=
  if 0 ≤ x then (x - ⌊x⌋, ⌊x⌋) else (x - ⌈x⌉, ⌈x⌉)

/-- Python builtin round on floats: round half to even (bankers rounding). -/
noncomputable def pyround (x : ℝ) : ℤ :=
  if Int.fract x < 1 / 2 then ⌊x⌋
  else if 1 / 2 < Int.fract x then ⌊x⌋ + 1
  else if Even ⌊x⌋ then ⌊x⌋ else ⌊x⌋ + 1

/-- Source lines 24-30: equation_of_time, a function of the day of year
(date.timetuple().tm_yday). -/
noncomputable def equation_of_time (tm_yday : ℤ) : ℝ :=
  let w : ℝ := TAU / DAYS_PER_YEAR
  let d : ℝ := (tm_yday : ℝ)
  let a : ℝ := w * (d + 10)
  let b : ℝ := a + 2 * 0.0167 * Real.sin (w * (d - 2))
  let c : ℝ := (a - Real.arctan (Real.tan b / Real.cos (rad_from_deg 23.44))) / (TAU / 2)
  (c - pyround c) * (TAU / 2)

/-- Source lines 32-51: solar_declination, a function of the number of days
since 2000-01-01 (crude_jd - crude_y2k_jd). -/
noncomputable def solar_declination (d_since_y2k : ℤ) : ℝ :=
  let m0 : ℝ := rad_from_deg 357.5291 + rad_from_deg 0.98560028 * (d_since_y2k : ℝ)
  let m : ℝ := pymod m0 TAU
  let c : ℝ := rad_from_deg 1.9148 * Real.sin m + rad_from_deg 0.02 * Real.sin (m * 2) +
    rad_from_deg 0.0003 * Real.sin (m * 3)
  let v : ℝ := m + c
  let earth_peri : ℝ := rad_from_deg 102.9372
  let l : ℝ := v + earth_peri
  let l_sun : ℝ := pymod (l + TAU / 2) TAU
  let d_sun : ℝ := rad_from_deg 22.8008 * Real.sin l_sun +
    rad_from_deg 0.5999 * Real.sin l_sun ^ 3 + rad_from_deg 0.0493 * Real.sin l_sun ^ 5
  d_sun

/-- Source lines 53-59: time_angle_to_hms. Returns (hours, minutes, seconds)
where the source returns (int(hours), int(minutes), seconds) with hours and
minutes integral floats. -/
noncomputable def time_angle_to_hms (time_angle : ℝ) : ℤ × ℤ × ℝ :=
  let day_frac0 : ℝ := time_angle / TAU
  let day_frac : ℝ := pymod day_frac0 1
  let hsplit : ℝ × ℤ := modf (day_frac * 24)
  let hour_frac : ℝ := hsplit.1
  let hours : ℤ := hsplit.2
  let msplit : ℝ × ℤ := modf (hour_frac * 60)
  let min_frac : ℝ := msplit.1
  let minutes : ℤ := msplit.2
  let seconds : ℝ := min_frac * 60
  (hours, minutes, seconds)

/-- Source line 9: the lightness_limit named tuple. Angles are the exact
decimal degree values of the source literals. -/
structure lightness_limit where
  id : String
  angle : ℚ
  nameup : String
  namedown : String
  description : String
deriving DecidableEq

/-- Source lines 10-16: the threshold list in source order, before sorting. -/
def limits_source_order : List lightness_limit :=
  [⟨"horizontal", 0, "horizontal sunrise", "horizontal sunset",
      "center of the true location of the sun on the horizon"⟩,
    ⟨"sunrise", 0.83, "sunrise", "sunset",
      "apparent sunset accounts for refraction and radius of the sun"⟩,
    ⟨"civil", 6, "civil dawn", "civil dusk", "sufficient light to work by"⟩,
    ⟨"naval", 12, "naval dawn", "naval dusk", "sufficient light to see the horizon"⟩,
    ⟨"astronomical", 18, "astronomical dawn", "astronomical dusk",
      "sufficient light to spoil astronomical observations"⟩]

/-- Source line 17: the catalog sorted ascending by angle (the iteration
order of the OrderedDict built there). -/
def limits : List lightness_limit :=
  limits_source_order.insertionSort (fun a b => a.angle ≤ b.angle)

/-- The outcome of the hour-angle computation of print_limits (source lines
80-85): a polar verdict or a solved hour angle. -/
inductive HourAngleResult where
  | PolarNight : HourAngleResult
  | PolarDay : HourAngleResult
  | Solved : ℝ → HourAngleResult

/-- Source lines 73-74: cos_of_hour as computed in print_limits, as a
function of latitude, solar declination and the threshold elevation below
the horizon (all in radians; the source obtains the elevation as
rad_from_deg limit.angle and negates it into sun_angle). -/
noncomputable def cos_of_hour (latitude sun_decl elevation : ℝ) : ℝ :=
  let sun_angle : ℝ := -elevation
  (Real.sin sun_angle - Real.sin latitude * Real.sin sun_decl) /
    (Real.cos latitude * Real.cos sun_decl)

open Classical in
/-- Source lines 80-85: the branch of print_limits that classifies
cos_of_hour into a polar verdict or an hour angle via math.acos. -/
noncomputable def solveHourAngle (latitude sun_decl elevation : ℝ) : HourAngleResult :=
  if cos_of_hour latitude sun_decl elevation > 1 then HourAngleResult.PolarNight
  else if cos_of_hour latitude sun_decl elevation < -1 then HourAngleResult.PolarDay
  else HourAngleResult.Solved (Real.arccos (cos_of_hour latitude sun_decl elevation))

/-- The four time bases offered by print_limits (source lines 93-103):
solar, mean, utc, and an integer fixed zone offset. -/
inductive TimeBasis where
  | LocalSolar : TimeBasis
  | MeanSolar : TimeBasis
  | UTC : TimeBasis
  | FixedOffset : ℤ → TimeBasis
deriving DecidableEq

/-- Source lines 86-103: the reference noon time-angle selected for a time
basis from the longitude and the equation-of-time value (noon_local,
noon_mean, noon_utc, noon_zone = noon_utc + val / 24 * TAU). -/
noncomputable def referenceNoon (basis : TimeBasis) (longtitude eot : ℝ) : ℝ :=
  match basis with
  | TimeBasis.LocalSolar => TAU / 2
  | TimeBasis.MeanSolar => TAU / 2 - eot
  | TimeBasis.UTC => TAU / 2 - longtitude - eot
  | TimeBasis.FixedOffset val => (TAU / 2 - longtitude - eot) + (val : ℝ) / 24 * TAU

/-- Source line 104: sunrise = values[0] - hour_angle. -/
noncomputable def sunriseAngle (noon hour_angle : ℝ) : ℝ := noon - hour_angle

/-- Source line 105: sunset = values[0] + hour_angle. -/
noncomputable def sunsetAngle (noon hour_angle : ℝ) : ℝ := noon + hour_angle

/-! Helper lemmas shared by the claim theorems. -/

lemma TAU_pos : 0 < TAU := by
  unfold TAU; positivity

lemma TAU_ne_zero : TAU ≠ 0 := ne_of_gt TAU_pos

lemma pymod_one (x : ℝ) : pymod x 1 = Int.fract x := by
  unfold pymod
  rw [div_one, one_mul, Int.self_sub_floor]

lemma modf_of_nonneg {x : ℝ} (hx : 0 ≤ x) : modf x = (Int.fract x, ⌊x⌋) := by
  unfold modf
  rw [if_pos hx, Int.self_sub_floor]

lemma cos_of_hour_eq (latitude sun_decl e : ℝ) :
    cos_of_hour latitude sun_decl e =
      (Real.sin (-e) - Real.sin latitude * Real.sin sun_decl) /
        (Real.cos latitude * Real.cos sun_decl) := rfl

lemma solveHourAngle_eq_solved_iff (latitude sun_decl e h : ℝ) :
    solveHourAngle latitude sun_decl e = HourAngleResult.Solved h ↔
      cos_of_hour latitude sun_decl e ≤ 1 ∧ -1 ≤ cos_of_hour latitude sun_decl e ∧
        h = Real.arccos (cos_of_hour latitude sun_decl e) := by
  unfold solveHourAngle
  split_ifs with h1 h2
  · constructor
    · intro hx; cases hx
    · rintro ⟨hc, -, -⟩; exact absurd h1 (not_lt.mpr hc)
  · constructor
    · intro hx; cases hx
    · rintro ⟨-, hc, -⟩; exact absurd h2 (not_lt.mpr hc)
  · simp only [HourAngleResult.Solved.injEq]
    constructor
    · intro hx; exact ⟨not_lt.mp h1, not_lt.mp h2, hx.symm⟩
    · rintro ⟨-, -, hx⟩; exact hx.symm

lemma solve_equator_horizon (sun_decl : ℝ) :
    solveHourAngle 0 sun_decl 0 = HourAngleResult.Solved (Real.pi / 2) := by
  have hc : cos_of_hour 0 sun_decl 0 = 0 := by
    simp [cos_of_hour]
  rw [solveHourAngle_eq_solved_iff, hc]
  norm_num [Real.arccos_zero]

/-! The claim theorems. -/

/-- C1: for every latitude, declination and elevation e with e nonnegative and
cos latitude * cos declination nonzero, print_limits computes
cos_of_hour = (sin (-e) - sin latitude * sin declination) /
(cos latitude * cos declination), returns PolarNight when it exceeds 1,
PolarDay when it is below -1, and otherwise Solved (arccos cos_of_hour) with
the hour angle in [0, pi]. -/
theorem solveHourAngle_spec (latitude sun_decl e : ℝ) (he : 0 ≤ e)
    (hden : Real.cos latitude * Real.cos sun_decl ≠ 0) :
    cos_of_hour latitude sun_decl e =
      (Real.sin (-e) - Real.sin latitude * Real.sin sun_decl) /
        (Real.cos latitude * Real.cos sun_decl) ∧
    (cos_of_hour latitude sun_decl e > 1 →
      solveHourAngle latitude sun_decl e = HourAngleResult.PolarNight) ∧
    (cos_of_hour latitude sun_decl e < -1 →
      solveHourAngle latitude sun_decl e = HourAngleResult.PolarDay) ∧
    (¬ cos_of_hour latitude sun_decl e > 1 → ¬ cos_of_hour latitude sun_decl e < -1 →
      solveHourAngle latitude sun_decl e =
        HourAngleResult.Solved (Real.arccos (cos_of_hour latitude sun_decl e)) ∧
      0 ≤ Real.arccos (cos_of_hour latitude sun_decl e) ∧
      Real.arccos (cos_of_hour latitude sun_decl e) ≤ Real.pi) := by
  refine ⟨rfl, fun hgt => ?_, fun hlt => ?_, fun hgt hlt => ?_⟩
  · unfold solveHourAngle
    rw [if_pos hgt]
  · unfold solveHourAngle
    rw [if_neg (by intro hx; exact absurd hlt (not_lt.mpr (le_trans (by norm_num) (le_of_lt hx)))),
      if_pos hlt]
  · refine ⟨?_, Real.arccos_nonneg _, Real.arccos_le_pi _⟩
    unfold solveHourAngle
    rw [if_neg hgt, if_neg hlt]

/-- Witness for C1 at latitude 0, declination 0, elevation 0. -/
theorem solveHourAngle_spec_witness :
    (0 : ℝ) ≤ 0 ∧ Real.cos 0 * Real.cos 0 ≠ (0 : ℝ) ∧
    solveHourAngle 0 0 0 = HourAngleResult.Solved (Real.arccos (cos_of_hour 0 0 0)) := by
  have h := solveHourAngle_spec 0 0 0 (le_refl 0) (by norm_num)
  have hc : cos_of_hour 0 0 0 = 0 := by simp [cos_of_hour]
  exact ⟨le_refl 0, by norm_num,
    (h.2.2.2 (by rw [hc]; norm_num) (by rw [hc]; norm_num)).1⟩

/-- C2: the reference noon time-angle is pi for the local-solar basis,
pi - equationOfTime for the mean-solar basis, pi - longitude - equationOfTime
for the UTC basis, and (pi - longitude - equationOfTime) + h * (2 pi / 24)
for the fixed-offset basis with integer offset h. -/
theorem referenceNoon_spec (longtitude eot : ℝ) (h : ℤ) :
    referenceNoon TimeBasis.LocalSolar longtitude eot = Real.pi ∧
    referenceNoon TimeBasis.MeanSolar longtitude eot = Real.pi - eot ∧
    referenceNoon TimeBasis.UTC longtitude eot = Real.pi - longtitude - eot ∧
    referenceNoon (TimeBasis.FixedOffset h) longtitude eot =
      (Real.pi - longtitude - eot) + (h : ℝ) * (2 * Real.pi / 24) := by
  refine ⟨?_, ?_, ?_, ?_⟩ <;> simp only [referenceNoon, TAU] <;> ring

/-- C3: for every reference noon and solved hour angle, the rise instant is
noon - hourAngle and the set instant is noon + hourAngle, so rise and set are
symmetric about noon: noon - rise = set - noon = hourAngle. -/
theorem rise_set_symmetric (noon hour_angle : ℝ) :
    sunriseAngle noon hour_angle = noon - hour_angle ∧
    sunsetAngle noon hour_angle = noon + hour_angle ∧
    noon - sunriseAngle noon hour_angle = hour_angle ∧
    sunsetAngle noon hour_angle - noon = hour_angle := by
  refine ⟨rfl, rfl, ?_, ?_⟩ <;> simp [sunriseAngle, sunsetAngle]

/-- C7: the threshold catalog holds exactly five thresholds with elevations
0, 0.83, 6, 12 and 18 degrees, every elevation is nonnegative, and iteration
yields them in ascending order of elevation. -/
theorem limits_catalog_spec :
    limits.length = 5 ∧
    limits.map lightness_limit.angle = [0, 0.83, 6, 12, 18] ∧
    (∀ l ∈ limits, 0 ≤ l.angle) ∧
    limits.Chain' (fun a b => a.angle < b.angle) := by
  have hl : limits = limits_source_order := by
    norm_num [limits, limits_source_order, List.insertionSort, List.orderedInsert]
  rw [hl]
  refine ⟨rfl, ?_, ?_, ?_⟩ <;> norm_num [limits_source_order, List.chain'_cons]

/-- C8: at the equator (latitude 0) with threshold elevation 0, the solver
returns Solved (pi / 2) for every declination of magnitude below pi / 2. -/
theorem equator_horizon_half_pi (sun_decl : ℝ) (h : |sun_decl| < Real.pi / 2) :
    solveHourAngle 0 sun_decl 0 = HourAngleResult.Solved (Real.pi / 2) :=
  solve_equator_horizon sun_decl

/-- Witness for C8 at declination 0. -/
theorem equator_horizon_half_pi_witness :
    |(0 : ℝ)| < Real.pi / 2 ∧
    solveHourAngle 0 0 0 = HourAngleResult.Solved (Real.pi / 2) := by
  have habs : |(0 : ℝ)| < Real.pi / 2 := by
    rw [abs_zero]; positivity
  exact ⟨habs, equator_horizon_half_pi 0 habs⟩

lemma two_pi_div_TAU : (2 * Real.pi) / TAU = 1 := by
  have h : TAU ≠ 0 := TAU_ne_zero
  rw [TAU] at h ⊢
  rw [div_eq_one_iff_eq h]
  ring

/-- C4: clock-triple rendering is total and invariant under adding a full
turn: rendering t + 2 pi yields the same triple as rendering t, and a
time-angle of exactly 2 pi renders as (0, 0, 0). -/
theorem hms_total_mod_full_turn (t : ℝ) :
    time_angle_to_hms (t + 2 * Real.pi) = time_angle_to_hms t ∧
    time_angle_to_hms (2 * Real.pi) = (0, 0, (0 : ℝ)) := by
  constructor
  · simp only [time_angle_to_hms]
    rw [add_div, two_pi_div_TAU, pymod_one, pymod_one, Int.fract_add_one]
  · simp only [time_angle_to_hms]
    rw [two_pi_div_TAU, pymod_one, Int.fract_one]
    rw [zero_mul, modf_of_nonneg le_rfl]
    norm_num [Int.fract_zero, modf_of_nonneg le_rfl]

/-- C5: the rendered clock triple always has hours in [0, 23], minutes in
[0, 59] and seconds in [0, 60), each component being produced by truncation
of the remaining fraction, never rounding up. -/
theorem hms_component_ranges (t : ℝ) :
    (time_angle_to_hms t).1 = ⌊Int.fract (t / TAU) * 24⌋ ∧
    (time_angle_to_hms t).2.1 = ⌊Int.fract (Int.fract (t / TAU) * 24) * 60⌋ ∧
    (time_angle_to_hms t).2.2 = Int.fract (Int.fract (Int.fract (t / TAU) * 24) * 60) * 60 ∧
    0 ≤ (time_angle_to_hms t).1 ∧ (time_angle_to_hms t).1 ≤ 23 ∧
    0 ≤ (time_angle_to_hms t).2.1 ∧ (time_angle_to_hms t).2.1 ≤ 59 ∧
    0 ≤ (time_angle_to_hms t).2.2 ∧ (time_angle_to_hms t).2.2 < 60 := by
  simp only [time_angle_to_hms, pymod_one]
  have hx0 : 0 ≤ Int.fract (t / TAU) := Int.fract_nonneg _
  have hx1 : Int.fract (t / TAU) < 1 := Int.fract_lt_one _
  have h24 : (0 : ℝ) ≤ Int.fract (t / TAU) * 24 := by positivity
  rw [modf_of_nonneg h24]
  have hf0 : 0 ≤ Int.fract (Int.fract (t / TAU) * 24) := Int.fract_nonneg _
  have hf1 : Int.fract (Int.fract (t / TAU) * 24) < 1 := Int.fract_lt_one _
  have h60 : (0 : ℝ) ≤ Int.fract (Int.fract (t / TAU) * 24) * 60 := by positivity
  rw [modf_of_nonneg h60]
  have hg0 : 0 ≤ Int.fract (Int.fract (Int.fract (t / TAU) * 24) * 60) := Int.fract_nonneg _
  have hg1 : Int.fract (Int.fract (Int.fract (t / TAU) * 24) * 60) < 1 := Int.fract_lt_one _
  refine ⟨rfl, rfl, rfl,
    Int.floor_nonneg.mpr h24, ?_, Int.floor_nonneg.mpr h60, ?_, by positivity, ?_⟩
  · have h : ⌊Int.fract (t / TAU) * 24⌋ < 24 := Int.floor_lt.mpr (by push_cast; nlinarith)
    omega
  · have h : ⌊Int.fract (Int.fract (t / TAU) * 24) * 60⌋ < 60 :=
      Int.floor_lt.mpr (by push_cast; nlinarith)
    omega
  · nlinarith

lemma abs_coeff_sin_pow_le (c L : ℝ) (hc : 0 ≤ c) (n : ℕ) :
    |c * Real.sin L ^ n| ≤ c := by
  rw [abs_mul, abs_pow, abs_of_nonneg hc]
  exact mul_le_of_le_one_right hc (pow_le_one₀ (abs_nonneg _) (Real.abs_sin_le_one L))

lemma rad_from_deg_nonneg {x : ℝ} (hx : 0 ≤ x) : 0 ≤ rad_from_deg x := by
  unfold rad_from_deg TAU
  have hπ := Real.pi_pos
  nlinarith

lemma decl_series_abs_le (L : ℝ) :
    |rad_from_deg 22.8008 * Real.sin L + rad_from_deg 0.5999 * Real.sin L ^ 3 +
      rad_from_deg 0.0493 * Real.sin L ^ 5| ≤
      rad_from_deg 22.8008 + rad_from_deg 0.5999 + rad_from_deg 0.0493 := by
  have h1 : |rad_from_deg 22.8008 * Real.sin L| ≤ rad_from_deg 22.8008 := by
    have := abs_coeff_sin_pow_le (rad_from_deg 22.8008) L
      (rad_from_deg_nonneg (by norm_num)) 1
    rwa [pow_one] at this
  have h3 : |rad_from_deg 0.5999 * Real.sin L ^ 3| ≤ rad_from_deg 0.5999 :=
    abs_coeff_sin_pow_le _ L (rad_from_deg_nonneg (by norm_num)) 3
  have h5 : |rad_from_deg 0.0493 * Real.sin L ^ 5| ≤ rad_from_deg 0.0493 :=
    abs_coeff_sin_pow_le _ L (rad_from_deg_nonneg (by norm_num)) 5
  calc |rad_from_deg 22.8008 * Real.sin L + rad_from_deg 0.5999 * Real.sin L ^ 3 +
      rad_from_deg 0.0493 * Real.sin L ^ 5|
      ≤ |rad_from_deg 22.8008 * Real.sin L + rad_from_deg 0.5999 * Real.sin L ^ 3| +
        |rad_from_deg 0.0493 * Real.sin L ^ 5| := abs_add _ _
    _ ≤ rad_from_deg 22.8008 + rad_from_deg 0.5999 + rad_from_deg 0.0493 := by
        have := abs_add (rad_from_deg 22.8008 * Real.sin L)
          (rad_from_deg 0.5999 * Real.sin L ^ 3)
        linarith

lemma solar_declination_abs_le (d : ℤ) :
    |solar_declination d| ≤
      rad_from_deg 22.8008 + rad_from_deg 0.5999 + rad_from_deg 0.0493 := by
  simp only [solar_declination]
  exact decl_series_abs_le _

lemma solar_declination_lt_pi_div_three (d : ℤ) :
    |solar_declination d| < Real.pi / 3 := by
  have h := solar_declination_abs_le d
  have hπ := Real.pi_pos
  unfold rad_from_deg TAU at h
  nlinarith

/-- C10: the solar declination is bounded in magnitude by the sum of the
series coefficients, 22.8008 + 0.5999 + 0.0493 = 23.45 degrees in radians,
for every count of days since 2000-01-01. -/
theorem solar_declination_bounded (d_since_y2k : ℤ) :
    |solar_declination d_since_y2k| ≤
      rad_from_deg 22.8008 + rad_from_deg 0.5999 + rad_from_deg 0.0493 ∧
    rad_from_deg 22.8008 + rad_from_deg 0.5999 + rad_from_deg 0.0493 =
      rad_from_deg 23.45 := by
  refine ⟨solar_declination_abs_le _, ?_⟩
  unfold rad_from_deg
  ring_nf

lemma cos_of_hour_antitone (latitude sun_decl : ℝ) {e1 e2 : ℝ}
    (hlat : |latitude| < Real.pi / 2) (hdecl : |sun_decl| < Real.pi / 2)
    (he1 : 0 ≤ e1) (h12 : e1 ≤ e2) (he2 : e2 ≤ Real.pi / 2) :
    cos_of_hour latitude sun_decl e2 ≤ cos_of_hour latitude sun_decl e1 := by
  have hπ := Real.pi_pos
  have hcoslat : 0 < Real.cos latitude :=
    Real.cos_pos_of_mem_Ioo ⟨(abs_lt.mp hlat).1, (abs_lt.mp hlat).2⟩
  have hcosdecl : 0 < Real.cos sun_decl :=
    Real.cos_pos_of_mem_Ioo ⟨(abs_lt.mp hdecl).1, (abs_lt.mp hdecl).2⟩
  have hD : 0 < Real.cos latitude * Real.cos sun_decl := mul_pos hcoslat hcosdecl
  have hsin : Real.sin e1 ≤ Real.sin e2 :=
    Real.sin_le_sin_of_le_of_le_pi_div_two (by linarith) he2 h12
  rw [cos_of_hour_eq, cos_of_hour_eq, Real.sin_neg, Real.sin_neg]
  exact (div_le_div_iff_of_pos_right hD).mpr (by linarith)

/-- C9 (amended: the threshold elevations are additionally limited to at
most a quarter turn, e2 at most pi / 2, which covers the whole catalog):
for a fixed date, latitude of magnitude below pi / 2 and longitude, and
elevations 0 <= e1 <= e2 <= pi / 2 on both of which the solver returns
Solved, the hour angle for e2 is at least the hour angle for e1, so the
rise for e2 is not later and its set is not earlier, in every time basis. -/
theorem hour_angle_monotone_in_elevation (d_since_y2k tm_yday : ℤ)
    (latitude longtitude e1 e2 h1 h2 : ℝ) (basis : TimeBasis)
    (hlat : |latitude| < Real.pi / 2) (he1 : 0 ≤ e1) (h12 : e1 ≤ e2)
    (he2 : e2 ≤ Real.pi / 2)
    (hs1 : solveHourAngle latitude (solar_declination d_since_y2k) e1 =
      HourAngleResult.Solved h1)
    (hs2 : solveHourAngle latitude (solar_declination d_since_y2k) e2 =
      HourAngleResult.Solved h2) :
    h1 ≤ h2 ∧
    sunriseAngle (referenceNoon basis longtitude (equation_of_time tm_yday)) h2 ≤
      sunriseAngle (referenceNoon basis longtitude (equation_of_time tm_yday)) h1 ∧
    sunsetAngle (referenceNoon basis longtitude (equation_of_time tm_yday)) h1 ≤
      sunsetAngle (referenceNoon basis longtitude (equation_of_time tm_yday)) h2 := by
  have hπ := Real.pi_pos
  have hdecl : |solar_declination d_since_y2k| < Real.pi / 2 := by
    have := solar_declination_lt_pi_div_three d_since_y2k
    linarith
  obtain ⟨hc1le, hc1ge, hh1⟩ := (solveHourAngle_eq_solved_iff _ _ _ _).mp hs1
  obtain ⟨hc2le, hc2ge, hh2⟩ := (solveHourAngle_eq_solved_iff _ _ _ _).mp hs2
  have hc21 : cos_of_hour latitude (solar_declination d_since_y2k) e2 ≤
      cos_of_hour latitude (solar_declination d_since_y2k) e1 :=
    cos_of_hour_antitone _ _ hlat hdecl he1 h12 he2
  have hle : h1 ≤ h2 := by
    rw [hh1, hh2]
    exact (Real.strictAntiOn_arccos.le_iff_le ⟨hc1ge, hc1le⟩ ⟨hc2ge, hc2le⟩).mpr hc21
  exact ⟨hle, sub_le_sub_left hle _, add_le_add_left hle _⟩

/-- Witness for the amended C9 at the date 0 days since 2000-01-01, day of
year 1, latitude 0, longitude 0, elevations 0 and 0, local-solar basis. -/
theorem hour_angle_monotone_in_elevation_witness :
    |(0 : ℝ)| < Real.pi / 2 ∧ (0 : ℝ) ≤ 0 ∧ (0 : ℝ) ≤ Real.pi / 2 ∧
    solveHourAngle 0 (solar_declination 0) 0 = HourAngleResult.Solved (Real.pi / 2) ∧
    Real.pi / 2 ≤ Real.pi / 2 ∧
    sunsetAngle (referenceNoon TimeBasis.LocalSolar 0 (equation_of_time 1)) (Real.pi / 2) ≤
      sunsetAngle (referenceNoon TimeBasis.LocalSolar 0 (equation_of_time 1)) (Real.pi / 2) := by
  have habs : |(0 : ℝ)| < Real.pi / 2 := by rw [abs_zero]; positivity
  have hs : solveHourAngle 0 (solar_declination 0) 0 =
      HourAngleResult.Solved (Real.pi / 2) := solve_equator_horizon _
  have h := hour_angle_monotone_in_elevation 0 1 0 0 0 0 (Real.pi / 2) (Real.pi / 2)
    TimeBasis.LocalSolar habs le_rfl le_rfl (by positivity) hs hs
  exact ⟨habs, le_rfl, by positivity, hs, h.1, h.2.2⟩

/-- C9 fails as stated, without an upper bound on the elevations: at 0 days
since 2000-01-01, latitude 0, elevations pi / 6 and 11 pi / 12 are ordered
and nonnegative and the solver returns Solved on both, yet the hour angle
for the larger elevation is strictly smaller. -/
theorem hour_angle_not_monotone_counterexample :
    (0 : ℝ) ≤ Real.pi / 6 ∧ Real.pi / 6 ≤ 11 * Real.pi / 12 ∧
    |(0 : ℝ)| < Real.pi / 2 ∧
    solveHourAngle 0 (solar_declination 0) (Real.pi / 6) =
      HourAngleResult.Solved
        (Real.arccos (cos_of_hour 0 (solar_declination 0) (Real.pi / 6))) ∧
    solveHourAngle 0 (solar_declination 0) (11 * Real.pi / 12) =
      HourAngleResult.Solved
        (Real.arccos (cos_of_hour 0 (solar_declination 0) (11 * Real.pi / 12))) ∧
    Real.arccos (cos_of_hour 0 (solar_declination 0) (11 * Real.pi / 12)) <
      Real.arccos (cos_of_hour 0 (solar_declination 0) (Real.pi / 6)) := by
  have hπ := Real.pi_pos
  have hδ3 : |solar_declination 0| < Real.pi / 3 := solar_declination_lt_pi_div_three 0
  have hcosδ : 1 / 2 < Real.cos (solar_declination 0) := by
    have h1 : Real.cos (Real.pi / 3) < Real.cos |solar_declination 0| :=
      Real.cos_lt_cos_of_nonneg_of_le_pi (abs_nonneg _) (by linarith) hδ3
    rw [Real.cos_pi_div_three, Real.cos_abs] at h1
    linarith
  have hcosδ0 : 0 < Real.cos (solar_declination 0) := by linarith
  have hc1 : cos_of_hour 0 (solar_declination 0) (Real.pi / 6) =
      -(1 / 2) / Real.cos (solar_declination 0) := by
    rw [cos_of_hour_eq, Real.sin_neg, Real.sin_pi_div_six]
    simp
  have hsin512 : Real.sin (11 * Real.pi / 12) = Real.sin (Real.pi / 12) := by
    rw [show 11 * Real.pi / 12 = Real.pi - Real.pi / 12 by ring, Real.sin_pi_sub]
  have hs12pos : 0 < Real.sin (Real.pi / 12) :=
    Real.sin_pos_of_pos_of_lt_pi (by positivity) (by linarith)
  have hs12lt : Real.sin (Real.pi / 12) < 1 / 2 := by
    have h := Real.sin_lt_sin_of_lt_of_le_pi_div_two (x := Real.pi / 12) (y := Real.pi / 6)
      (by linarith) (by linarith) (by linarith)
    rwa [Real.sin_pi_div_six] at h
  have hc2 : cos_of_hour 0 (solar_declination 0) (11 * Real.pi / 12) =
      -Real.sin (Real.pi / 12) / Real.cos (solar_declination 0) := by
    rw [cos_of_hour_eq, Real.sin_neg, hsin512]
    simp
  have hb1 : -1 < -(1 / 2) / Real.cos (solar_declination 0) := by
    rw [neg_div]
    have h : (1 / 2) / Real.cos (solar_declination 0) < 1 :=
      (div_lt_one hcosδ0).mpr (by linarith)
    linarith
  have hb1' : -(1 / 2) / Real.cos (solar_declination 0) ≤ 1 := by
    have h : -(1 / 2) / Real.cos (solar_declination 0) < 0 :=
      div_neg_of_neg_of_pos (by norm_num) hcosδ0
    linarith
  have hb2 : -Real.sin (Real.pi / 12) / Real.cos (solar_declination 0) ≤ 1 := by
    have h : -Real.sin (Real.pi / 12) / Real.cos (solar_declination 0) < 0 :=
      div_neg_of_neg_of_pos (by linarith) hcosδ0
    linarith
  have hb2' : -1 ≤ -Real.sin (Real.pi / 12) / Real.cos (solar_declination 0) := by
    rw [neg_div]
    have h : Real.sin (Real.pi / 12) / Real.cos (solar_declination 0) < 1 :=
      (div_lt_one hcosδ0).mpr (by linarith)
    linarith
  have hlt : -(1 / 2) / Real.cos (solar_declination 0) <
      -Real.sin (Real.pi / 12) / Real.cos (solar_declination 0) := by
    rw [neg_div, neg_div]
    have h : Real.sin (Real.pi / 12) / Real.cos (solar_declination 0) <
        (1 / 2) / Real.cos (solar_declination 0) :=
      (div_lt_div_iff_of_pos_right hcosδ0).mpr hs12lt
    linarith
  refine ⟨by positivity, by nlinarith, by rw [abs_zero]; positivity, ?_, ?_, ?_⟩
  · exact (solveHourAngle_eq_solved_iff _ _ _ _).mpr
      ⟨by rw [hc1]; exact hb1', by rw [hc1]; linarith, rfl⟩
  · exact (solveHourAngle_eq_solved_iff _ _ _ _).mpr
      ⟨by rw [hc2]; exact hb2, by rw [hc2]; exact hb2', rfl⟩
  · have hmem1 : cos_of_hour 0 (solar_declination 0) (Real.pi / 6) ∈
        Set.Icc (-1 : ℝ) 1 := by
      rw [hc1]; exact ⟨by linarith, hb1'⟩
    have hmem2 : cos_of_hour 0 (solar_declination 0) (11 * Real.pi / 12) ∈
        Set.Icc (-1 : ℝ) 1 := by
      rw [hc2]; exact ⟨hb2', hb2⟩
    have hlt' : cos_of_hour 0 (solar_declination 0) (Real.pi / 6) <
        cos_of_hour 0 (solar_declination 0) (11 * Real.pi / 12) := by
      rw [hc1, hc2]; exact hlt
    exact Real.strictAntiOn_arccos hmem1 hmem2 hlt'

end Sunrise
